import Mathlib

/-!
Verification of the UnderSight access-control core and AI inventory pipeline.

Shallow embedding of `backend/app/core/middlewares/tenant.py`,
`backend/app/core/middlewares/rbac.py` and `backend/app/services/inventory.py`.
Python strings are Lean `String` (or `List Char` where character-level slicing
is involved), Python `dict.get` on possibly-missing keys is `Option`, raised
`HTTPException`s are the `.error` branch of `Except`.
-/

namespace UnderSight

/-- A raised FastAPI `HTTPException`, as carried by the `.error` branch. -/
structure HTTPException where
  status_code : Nat
  detail : String
deriving Repr, DecidableEq

/-- The user/principal dictionary as consumed by the middlewares.
`Option` fields model keys that `dict.get` may find absent (Python `None`);
`permissions` models `user.get("permissions", [])`; `is_super_admin` models
the truthiness of `user.get("is_super_admin")`. -/
structure UserDict where
  tenant_id : Option String := none
  tenant_type : Option String := none
  role : Option String := none
  permissions : List String := []
  is_super_admin : Bool := false
deriving Repr, DecidableEq

/-! ## Tenant hierarchy (`tenant.py`) -/

namespace TenantHierarchy

/-- The static method `can_access` of `TenantHierarchy`: same tenant always allowed,
root accesses everything, provider accesses customers and sub-customers,
customer accesses sub-customers, everything else is denied. -/
def can_access (requester_tenant_id requester_type target_tenant_id target_type : String) : Bool :=
  if requester_tenant_id == target_tenant_id then
    true
  else if requester_type == "root" then
    true
  else if requester_type == "provider" then
    target_type == "customer" || target_type == "sub_customer"
  else if requester_type == "customer" then
    target_type == "sub_customer"
  else
    false

end TenantHierarchy

/-- The rank table `hierarchy` in `require_tenant_access`
(`hierarchy.get(x, 0)` for a string key). -/
def hierarchyRank (t : String) : Nat :=
  if t = "root" then 4
  else if t = "provider" then 3
  else if t = "customer" then 2
  else if t = "sub_customer" then 1
  else 0

/-- Rank lookup for the tenant type of the user, which may be absent
(Python None ranks 0). -/
def hierarchyRankOpt (t : Option String) : Nat :=
  match t with
  | some s => hierarchyRank s
  | none => 0

/-- Python truthiness of an optional string (`if required_level:`):
false for `None` and for the empty string. -/
def truthyStr (s : Option String) : Bool :=
  match s with
  | some v => v != ""
  | none => false

/-- The checker produced by `require_tenant_access(required_level)` applied to
`current_user` (a missing principal is `none`). -/
def require_tenant_access (required_level : Option String) (current_user : Option UserDict) :
    Except HTTPException UserDict :=
  match current_user with
  | none => .error { status_code := 401, detail := "Authentication required" }
  | some user =>
    if truthyStr required_level then
      let user_level := hierarchyRankOpt user.tenant_type
      let required_level_num :=
        match required_level with
        | some lvl => hierarchyRank lvl
        | none => 0
      if user_level < required_level_num then
        .error { status_code := 403,
                 detail := "Tenant level " ++ (required_level.getD "") ++ " or higher required" }
      else
        .ok user
    else
      .ok user

/-! ## RBAC permission checkers (`rbac.py`) -/

/-- Simplified rendering of the Python tuple of permissions interpolated
into the 403 detail of the any-of and all-of checkers (the quoting of
Python repr is not modelled; no claim depends on the message text). -/
def pyTupleRepr (l : List String) : String :=
  match l with
  | [x] => "(" ++ x ++ ",)"
  | _ => "(" ++ String.intercalate ", " l ++ ")"

/-- The checker produced by `require_permission(permission)`: 401 without a
principal; admin role bypasses; otherwise the permission must be listed. -/
def require_permission (permission : String) (current_user : Option UserDict) :
    Except HTTPException UserDict :=
  match current_user with
  | none => .error { status_code := 401, detail := "Authentication required" }
  | some user =>
    if user.role == some "admin" then
      .ok user
    else if !(user.permissions.contains permission) then
      .error { status_code := 403, detail := "Permission denied: " ++ permission ++ " required" }
    else
      .ok user

/-- The checker produced by `require_any_permission(*permissions)`. -/
def require_any_permission (permissions : List String) (current_user : Option UserDict) :
    Except HTTPException UserDict :=
  match current_user with
  | none => .error { status_code := 401, detail := "Authentication required" }
  | some user =>
    if user.role == some "admin" then
      .ok user
    else if !(permissions.any (fun p => user.permissions.contains p)) then
      .error { status_code := 403,
               detail := "Permission denied: one of " ++ pyTupleRepr permissions ++ " required" }
    else
      .ok user

/-- The checker produced by `require_all_permissions(*permissions)`. -/
def require_all_permissions (permissions : List String) (current_user : Option UserDict) :
    Except HTTPException UserDict :=
  match current_user with
  | none => .error { status_code := 401, detail := "Authentication required" }
  | some user =>
    if user.role == some "admin" then
      .ok user
    else if !(permissions.all (fun p => user.permissions.contains p)) then
      .error { status_code := 403,
               detail := "Permission denied: all of " ++ pyTupleRepr permissions ++ " required" }
    else
      .ok user

/-- Python `str()` applied to an optional string: `str(None)` is `"None"`,
as in `str(user.get("tenant_id"))`. -/
def pyStr (s : Option String) : String :=
  match s with
  | some v => v
  | none => "None"

namespace ResourceAccessControl

/-- The static method `can_access_resource` of `ResourceAccessControl`: super admin
passes, then tenant equality is required, then admin role or an explicit
permission. -/
def can_access_resource (user : UserDict) (resource_tenant_id : String) (permission : String) :
    Bool :=
  if user.is_super_admin then
    true
  else if pyStr user.tenant_id != resource_tenant_id then
    false
  else if user.role == some "admin" then
    true
  else
    user.permissions.contains permission

end ResourceAccessControl

/-- A result carries HTTP status 401 (the `Unauthenticated` outcome). -/
def isUnauthenticated (r : Except HTTPException UserDict) : Prop :=
  ∃ d, r = .error { status_code := 401, detail := d }

/-- A result carries HTTP status 403 (the `Forbidden` outcome). -/
def isForbidden (r : Except HTTPException UserDict) : Prop :=
  ∃ d, r = .error { status_code := 403, detail := d }

/-- The same-tenant, non-admin, permissionless user of the C3 counterexample. -/
def c3user : UserDict :=
  { tenant_id := some "t1", role := some "viewer", permissions := [], is_super_admin := false }

/-! ## Inventory pipeline (`services/inventory.py`)

Python strings are modelled as `List Char` where character-level search and
slicing matters (response content, templates); a parsed JSON document is the
inductive `JVal`. The HTTP call itself and `json.loads` are abstracted as an
`Except`-valued outcome fed to the pure part of the pipeline; every exception
the Python code can raise up to that point is the `.error` branch. -/

/-- The `Decision` enum. Constructor names follow the Python members
APPROVE/REJECT/PENDING/FLAG; `value` gives the enum value strings. -/
inductive Decision where
  | approve
  | reject
  | pending
  | flag
deriving Repr, DecidableEq

/-- The string value of each `Decision` member. -/
def Decision.value : Decision → String
  | .approve => "approved"
  | .reject => "rejected"
  | .pending => "pending"
  | .flag => "flag"

/-- Construction of a `Decision` from a value string: look a member up by
value; `none` models the `ValueError` raised for unknown strings. -/
def Decision.fromValue (s : String) : Option Decision :=
  if s = "approved" then some .approve
  else if s = "rejected" then some .reject
  else if s = "pending" then some .pending
  else if s = "flag" then some .flag
  else none

/-- A parsed JSON value as returned by `json.loads`. -/
inductive JVal where
  | jnull
  | jbool (b : Bool)
  | jnum (q : ℚ)
  | jstr (s : String)
  | jarr (elems : List JVal)
  | jobj (fields : List (String × JVal))

/-- Key access on a parsed JSON object: keys of a parsed JSON object are
unique, so first match suffices. -/
def jGet (fields : List (String × JVal)) (key : String) : Option JVal :=
  (fields.find? (fun kv => kv.1 == key)).map (fun kv => kv.2)

/-- The `AIOutput` pydantic model. `confidence` (a Python float) is modelled
as a rational; the values relevant to the claims (0.0, 0.5) are exact. -/
structure AIOutput where
  decision : Decision
  comments : String
  confidence : ℚ
  suggested_tags : List String := []
  suggested_risk_score : Int := 0
  suggested_asset_type : Option String := none
deriving Repr, DecidableEq

/-- The decision field: an absent key defaults to the string pending; a
non-member string or non-string value raises `ValueError`. -/
def getDecision (fields : List (String × JVal)) : Except String Decision :=
  match jGet fields "decision" with
  | none => .ok .pending
  | some (.jstr s) =>
    match Decision.fromValue s with
    | some d => .ok d
    | none => .error ("ValueError: " ++ s ++ " is not a valid Decision")
  | some _ => .error "ValueError: not a valid Decision"

/-- Access of the comments key with default empty string, validated as a
string by pydantic. (The pydantic numeric-to-string coercions are not
modelled; no claim depends on them.) -/
def getComments (fields : List (String × JVal)) : Except String String :=
  match jGet fields "comments" with
  | none => .ok ""
  | some (.jstr s) => .ok s
  | some _ => .error "ValidationError: comments must be a string"

/-- The confidence field, defaulting to one half and coerced with Python
float conversion. (That conversion also parses numeric strings; the string
case is not modelled and no claim depends on it.) -/
def getConfidence (fields : List (String × JVal)) : Except String ℚ :=
  match jGet fields "confidence" with
  | none => .ok (1 / 2)
  | some (.jnum q) => .ok q
  | some (.jbool b) => .ok (if b then 1 else 0)
  | some _ => .error "TypeError: float() argument must be a number"

/-- The suggested tags field, defaulting to the empty list and validated as
a list of strings. -/
def getTags (fields : List (String × JVal)) : Except String (List String) :=
  match jGet fields "suggested_tags" with
  | none => .ok []
  | some (.jarr elems) =>
    elems.mapM (fun e =>
      match e with
      | .jstr s => Except.ok s
      | _ => Except.error "ValidationError: suggested_tags entries must be strings")
  | some _ => .error "ValidationError: suggested_tags must be a list"

/-- Truncation toward zero, as Python `int()` applied to a float. -/
def ratTrunc (q : ℚ) : Int := q.num.tdiv q.den

/-- The suggested risk score field, defaulting to 0 and coerced with Python
int conversion. (Numeric strings again not modelled.) -/
def getRiskScore (fields : List (String × JVal)) : Except String Int :=
  match jGet fields "suggested_risk_score" with
  | none => .ok 0
  | some (.jnum q) => .ok (ratTrunc q)
  | some (.jbool b) => .ok (if b then 1 else 0)
  | some _ => .error "TypeError: int() argument must be a number"

/-- The suggested asset type field, an optional string: absent or JSON null
is `none`. -/
def getAssetType (fields : List (String × JVal)) : Except String (Option String) :=
  match jGet fields "suggested_asset_type" with
  | none => .ok none
  | some .jnull => .ok none
  | some (.jstr s) => .ok (some s)
  | some _ => .error "ValidationError: suggested_asset_type must be a string"

/-- Construction of the `AIOutput` from the parsed JSON object, with the
per-key defaults; the first failing coercion aborts with its exception. -/
def buildAIOutput (fields : List (String × JVal)) : Except String AIOutput := do
  let decision ← getDecision fields
  let comments ← getComments fields
  let confidence ← getConfidence fields
  let suggested_tags ← getTags fields
  let suggested_risk_score ← getRiskScore fields
  let suggested_asset_type ← getAssetType fields
  return { decision, comments, confidence, suggested_tags, suggested_risk_score,
           suggested_asset_type }

/-- The body of the `try` block of `AIService.process_item` after the HTTP
call: `outcome` is `.error` for any exception up to and including
`json.loads` (network error, non-2xx from `raise_for_status`, envelope
access, malformed JSON); on success the parsed value must be an object and
the `AIOutput` construction may still fail. -/
def aiAttempt (outcome : Except String JVal) : Except String AIOutput := do
  let v ← outcome
  match v with
  | .jobj fields => buildAIOutput fields
  | _ => Except.error "AttributeError: parsed JSON has no attribute get"

/-- The `except` branch of `AIService.process_item`. -/
def aiFallback (reason : String) : AIOutput :=
  { decision := .pending, comments := "AI processing failed: " ++ reason, confidence := 0 }

namespace AIService

/-- The method `process_item` of `AIService`: the whole `try` body with any
raised exception converted to the pending fallback. -/
def process_item (outcome : Except String JVal) : AIOutput :=
  match aiAttempt outcome with
  | .ok out => out
  | .error e => aiFallback e

end AIService

/-! ### Response-content extraction -/

/-- Python `str.find` for a single character: index of the first occurrence,
`-1` if absent. -/
def pyFind (cs : List Char) (c : Char) : Int :=
  match cs with
  | [] => -1
  | x :: xs =>
    if x = c then 0
    else
      let r := pyFind xs c
      if r < 0 then -1 else r + 1

/-- Python `str.rfind` for a single character: index of the last occurrence,
`-1` if absent. -/
def pyRfind (cs : List Char) (c : Char) : Int :=
  match cs with
  | [] => -1
  | x :: xs =>
    let r := pyRfind xs c
    if r ≥ 0 then r + 1
    else if x = c then 0 else -1

/-- Python slice-index normalization: negative indices count from the end,
then the index is clamped into the interval from 0 to the length. -/
def pyClampIndex (n : Nat) (i : Int) : Nat :=
  let j := if i < 0 then i + n else i
  if j < 0 then 0 else min j.toNat n

/-- A Python slice with the given start and stop. -/
def pySlice (cs : List Char) (start stop : Int) : List Char :=
  (cs.drop (pyClampIndex cs.length start)).take
    (pyClampIndex cs.length stop - pyClampIndex cs.length start)

/-- The JSON extraction in `AIService.process_item`: slice the content from
the first brace position given by `find` to one past the last brace position
given by `rfind`. -/
def extractJson (content : List Char) : List Char :=
  pySlice content (pyFind content '{') (pyRfind content '}' + 1)

/-- The description of the extraction given by the spec, stated in the
words of the spec: drop
everything strictly before the first opening brace, then drop everything
strictly after the last closing brace (via the reversal). -/
def specSegment (content : List Char) : List Char :=
  ((content.dropWhile (· != '{')).reverse.dropWhile (· != '}')).reverse

/-! ### Prompt construction -/

/-- The `EquipmentData` pydantic model (the free-form `metadata` map is
carried through the pipeline unchanged and is not modelled). -/
structure EquipmentData where
  external_id : Option String := none
  hostname : Option String := none
  ip_address : Option String := none
  mac_address : Option String := none
  os : Option String := none
  os_version : Option String := none
  asset_type : Option String := none
  manufacturer : Option String := none
  model : Option String := none
  serial_number : Option String := none
  location : Option String := none
  department : Option String := none
  owner : Option String := none
  tags : List String := []
  source : String := "n8n"
deriving Repr, DecidableEq

/-- Python `value or "Unknown"` on an optional field: `None` and the empty
string are falsy. -/
def orUnknown (v : Option String) : String :=
  match v with
  | some s => if s = "" then "Unknown" else s
  | none => "Unknown"

/-- The tags rendering of `_build_prompt`: comma-space join when the list is
nonempty, the literal `"None"` when it is empty. -/
def renderTags (tags : List String) : String :=
  match tags with
  | [] => "None"
  | _ => String.intercalate ", " tags

/-- The `replacements` dict of `_build_prompt`, in insertion order. -/
def promptReplacements (data : EquipmentData) : List (String × String) :=
  [("{hostname}", orUnknown data.hostname),
   ("{ip_address}", orUnknown data.ip_address),
   ("{mac_address}", orUnknown data.mac_address),
   ("{os}", orUnknown data.os),
   ("{os_version}", orUnknown data.os_version),
   ("{asset_type}", orUnknown data.asset_type),
   ("{manufacturer}", orUnknown data.manufacturer),
   ("{model}", orUnknown data.model),
   ("{serial_number}", orUnknown data.serial_number),
   ("{location}", orUnknown data.location),
   ("{department}", orUnknown data.department),
   ("{owner}", orUnknown data.owner),
   ("{tags}", renderTags data.tags),
   ("{source}", data.source)]

/-- Python `str.replace` (all occurrences, left to right, non-overlapping)
on character lists, with an explicit recursion bound so that the definition
is structurally recursive and kernel-evaluable. Each step consumes at least
one character of `s` (the patterns used here are never empty), so fuel
`s.length` is never exhausted. -/
def replaceListFuel : Nat → List Char → List Char → List Char → List Char
  | _, [], _, _ => []
  | 0, s, _, _ => s
  | fuel + 1, x :: xs, pat, rep =>
    if pat ≠ [] ∧ (x :: xs).take pat.length = pat then
      rep ++ replaceListFuel fuel ((x :: xs).drop pat.length) pat rep
    else
      x :: replaceListFuel fuel xs pat rep

/-- Python `str.replace` on character lists. -/
def replaceList (s pat rep : List Char) : List Char :=
  replaceListFuel s.length s pat rep

/-- The replacement loop of `_build_prompt` applied to a template (the
`config.prompt_template or DEFAULT_PROMPT` selection happens before it). -/
def build_prompt (template : String) (data : EquipmentData) : String :=
  ⟨(promptReplacements data).foldl
      (fun acc kv => replaceList acc kv.1.data kv.2.data) template.data⟩

/-- What `_build_prompt` substitutes for a given placeholder. -/
def lookupReplacement (data : EquipmentData) (key : String) : Option String :=
  ((promptReplacements data).find? (fun kv => kv.1 == key)).map (fun kv => kv.2)

/-! ### Inventory orchestration -/

/-- The inventory item dict built by `InventoryService.process_item`
(timestamps and the free-form metadata map omitted; `raw_data` keeps the
original equipment record). -/
structure InvItem where
  tenant_id : String
  source : String
  external_id : Option String
  hostname : Option String
  ip_address : Option String
  mac_address : Option String
  os : Option String
  os_version : Option String
  asset_type : Option String
  manufacturer : Option String
  model : Option String
  serial_number : Option String
  location : Option String
  department : Option String
  owner : Option String
  tags : List String
  risk_score : Int
  status : String
  inventory_decision : String
  inventory_comments : String
  raw_data : EquipmentData
  processed_by : String
deriving Repr, DecidableEq

/-- Python `a or b` on optional strings (`None` and the empty string are
falsy), as in the suggested-asset-type fallback. -/
def pyOrStr (a b : Option String) : Option String :=
  match a with
  | some s => if s = "" then b else some s
  | none => b

namespace InventoryService

/-- The method `process_item` of `InventoryService`: `ai_result = some out` when an AI
pipeline is configured and produced `out` (its `process_item` is total),
`none` when no AI configuration exists. `list(set(tags))` has unspecified
order; it is modelled by `List.dedup`, and the tag claims are stated at the
level of the underlying set. -/
def process_item (tenant_id : String) (ai_result : Option AIOutput)
    (equipment : EquipmentData) : InvItem :=
  match ai_result with
  | some ai =>
    let status :=
      if ai.decision = .approve then "approved"
      else if ai.decision = .reject then "rejected"
      else if ai.decision = .flag then "pending"
      else "pending"
    { tenant_id
      source := equipment.source
      external_id := equipment.external_id
      hostname := equipment.hostname
      ip_address := equipment.ip_address
      mac_address := equipment.mac_address
      os := equipment.os
      os_version := equipment.os_version
      asset_type := pyOrStr ai.suggested_asset_type equipment.asset_type
      manufacturer := equipment.manufacturer
      model := equipment.model
      serial_number := equipment.serial_number
      location := equipment.location
      department := equipment.department
      owner := equipment.owner
      tags := (equipment.tags ++ ai.suggested_tags).dedup
      risk_score := ai.suggested_risk_score
      status
      inventory_decision := ai.comments
      inventory_comments := ai.comments
      raw_data := equipment
      processed_by := "ai" }
  | none =>
    { tenant_id
      source := equipment.source
      external_id := equipment.external_id
      hostname := equipment.hostname
      ip_address := equipment.ip_address
      mac_address := equipment.mac_address
      os := equipment.os
      os_version := equipment.os_version
      asset_type := equipment.asset_type
      manufacturer := equipment.manufacturer
      model := equipment.model
      serial_number := equipment.serial_number
      location := equipment.location
      department := equipment.department
      owner := equipment.owner
      tags := equipment.tags.dedup
      risk_score := 0
      status := "approved"
      inventory_decision := "Auto-approved: No AI configuration"
      inventory_comments := "Auto-approved: No AI configuration"
      raw_data := equipment
      processed_by := "rule" }

/-- The stored inventory record fields a manual decision touches. -/
structure StoredItem where
  status : String := "pending"
  inventory_comments : String := ""
  processed_by : String := "ai"
deriving Repr, DecidableEq

/-- An `updates` dict for `update_item`; a `some` field is a present key. -/
structure ItemUpdates where
  status : Option String := none
  inventory_comments : Option String := none
  processed_by : Option String := none
deriving Repr, DecidableEq

/-- Modelled from the spec: the body of `InventoryService.update_item` is a
persistence stub in the source (the `update in database` TODO); per the
spec, a manual decision "overwrites status and comments regardless of prior
AI decision", so applying the updates dict overwrites each field whose key
is present. -/
def update_item (item : StoredItem) (updates : ItemUpdates) : StoredItem :=
  { status := updates.status.getD item.status
    inventory_comments := updates.inventory_comments.getD item.inventory_comments
    processed_by := updates.processed_by.getD item.processed_by }

/-- The method `approve_item`: the updates dict is taken verbatim from
the source. -/
def approve_item (item : StoredItem) (comments : String) : StoredItem :=
  update_item item
    { status := some "approved"
      inventory_comments := some comments
      processed_by := some "manual" }

/-- The method `reject_item`: the updates dict is taken verbatim from
the source. -/
def reject_item (item : StoredItem) (comments : String) : StoredItem :=
  update_item item
    { status := some "rejected"
      inventory_comments := some comments
      processed_by := some "manual" }

end InventoryService

/-! ## Theorems -/

/-- C1: `TenantHierarchy.can_access` returns true exactly when the requester id
equals the target id, or the requester type is root, or the requester is a
provider targeting a customer or sub-customer, or a customer targeting a
sub-customer; every other pair (provider→provider, sub_customer requester,
unrecognized requester types) is denied. -/
theorem can_access_characterization (rid rty tid tty : String) :
    TenantHierarchy.can_access rid rty tid tty = true ↔
      rid = tid ∨ rty = "root" ∨
      (rty = "provider" ∧ (tty = "customer" ∨ tty = "sub_customer")) ∨
      (rty = "customer" ∧ tty = "sub_customer") := by
  unfold TenantHierarchy.can_access
  split_ifs with h1 h2 h3 h4 <;> simp_all

/-- C2: each RBAC checker raises 401 exactly when no principal is present;
given a principal, the single check raises 403 exactly when the role is not
admin and the permission is missing (and allows otherwise), the any-of check
exactly when the role is not admin and every listed permission is missing,
and the all-of check exactly when the role is not admin and some listed
permission is missing; an admin principal always passes. -/
theorem rbac_checkers_characterization (perm : String) (perms : List String)
    (u : Option UserDict) (user : UserDict) :
    (isUnauthenticated (require_permission perm u) ↔ u = none)
    ∧ (isUnauthenticated (require_any_permission perms u) ↔ u = none)
    ∧ (isUnauthenticated (require_all_permissions perms u) ↔ u = none)
    ∧ (isForbidden (require_permission perm (some user)) ↔
        (¬ user.role = some "admin" ∧ perm ∉ user.permissions))
    ∧ (require_permission perm (some user) = .ok user ↔
        (user.role = some "admin" ∨ perm ∈ user.permissions))
    ∧ (isForbidden (require_any_permission perms (some user)) ↔
        (¬ user.role = some "admin" ∧ ∀ p ∈ perms, p ∉ user.permissions))
    ∧ (require_any_permission perms (some user) = .ok user ↔
        (user.role = some "admin" ∨ ∃ p ∈ perms, p ∈ user.permissions))
    ∧ (isForbidden (require_all_permissions perms (some user)) ↔
        (¬ user.role = some "admin" ∧ ∃ p ∈ perms, p ∉ user.permissions))
    ∧ (require_all_permissions perms (some user) = .ok user ↔
        (user.role = some "admin" ∨ ∀ p ∈ perms, p ∈ user.permissions)) := by
  refine ⟨?_, ?_, ?_, ?_, ?_, ?_, ?_, ?_, ?_⟩ <;>
    first
    | (cases u with
       | none =>
         simp [require_permission, require_any_permission, require_all_permissions,
           isUnauthenticated]
       | some v =>
         simp only [require_permission, require_any_permission, require_all_permissions,
           isUnauthenticated]
         split_ifs <;> simp_all)
    | (simp only [require_permission, require_any_permission, require_all_permissions,
         isForbidden]
       split_ifs <;> simp_all [List.elem_iff])

/-- C3 counterexample: a same-tenant user with role viewer and an empty
permission set is denied by `can_access_resource`, while the claim (super
admin, or equal tenant ids, or admin with equal tenant ids) would allow it. -/
theorem can_access_resource_counterexample :
    ResourceAccessControl.can_access_resource c3user "t1" "alerts:read" = false
    ∧ (c3user.is_super_admin = true
        ∨ c3user.tenant_id = some "t1"
        ∨ (c3user.role = some "admin" ∧ c3user.tenant_id = some "t1")) := by
  constructor
  · rfl
  · right; left; rfl

/-- C3 amended: `can_access_resource` returns true iff the user is super
admin, or the tenant id of the user (under Python str conversion) equals the
tenant id of the resource AND the role of the user is admin or the permission
is in the permission set of the user; a non-super-admin cross-tenant user is
always denied. -/
theorem can_access_resource_characterization (user : UserDict) (rtid perm : String) :
    ResourceAccessControl.can_access_resource user rtid perm = true ↔
      user.is_super_admin = true
      ∨ (pyStr user.tenant_id = rtid
          ∧ (user.role = some "admin" ∨ perm ∈ user.permissions)) := by
  unfold ResourceAccessControl.can_access_resource
  split_ifs <;> simp_all [List.elem_iff]

/-- C10: the checker built by `require_tenant_access` raises 401 iff no user
is present, and for an authenticated user raises 403 iff the rank of the
tenant type of the user is below the rank of the required level (root 4, provider
3, customer 2, sub_customer 1, anything else or absent 0), allowing
otherwise; a required level outside the four recognized strings ranks 0 and
admits every authenticated user. -/
theorem require_tenant_access_characterization (lvl : String) (u : Option UserDict)
    (user : UserDict) :
    (isUnauthenticated (require_tenant_access (some lvl) u) ↔ u = none)
    ∧ (isForbidden (require_tenant_access (some lvl) (some user)) ↔
        hierarchyRankOpt user.tenant_type < hierarchyRank lvl)
    ∧ (require_tenant_access (some lvl) (some user) = .ok user ↔
        ¬ hierarchyRankOpt user.tenant_type < hierarchyRank lvl)
    ∧ hierarchyRank "root" = 4 ∧ hierarchyRank "provider" = 3
    ∧ hierarchyRank "customer" = 2 ∧ hierarchyRank "sub_customer" = 1
    ∧ hierarchyRankOpt none = 0
    ∧ (hierarchyRank lvl = 0 ↔
        lvl ≠ "root" ∧ lvl ≠ "provider" ∧ lvl ≠ "customer" ∧ lvl ≠ "sub_customer") := by
  have hrank : ∀ s : String, s ≠ "" → hierarchyRank s < hierarchyRank s → False := by
    intro s _ h; exact absurd h (lt_irrefl _)
  refine ⟨?_, ?_, ?_, ?_, ?_, ?_, ?_, ?_, ?_⟩
  · cases u with
    | none => simp [require_tenant_access, isUnauthenticated]
    | some v =>
      simp only [require_tenant_access, isUnauthenticated, truthyStr]
      split_ifs <;> simp_all
  · by_cases hl : lvl = ""
    · subst hl
      simp [require_tenant_access, isForbidden, truthyStr, hierarchyRank]
    · simp only [require_tenant_access, isForbidden, truthyStr]
      have : (lvl != "") = true := by simpa using hl
      simp only [this, if_true]
      split_ifs <;> simp_all
  · by_cases hl : lvl = ""
    · subst hl
      simp [require_tenant_access, truthyStr, hierarchyRank]
    · simp only [require_tenant_access, truthyStr]
      have : (lvl != "") = true := by simpa using hl
      simp only [this, if_true]
      split_ifs <;> simp_all
  · rfl
  · rfl
  · rfl
  · rfl
  · rfl
  · unfold hierarchyRank
    split_ifs <;> simp_all

/-- C4: `AIService.process_item` is total (modelled as a total function); on
any failed outcome it returns the pending fallback with confidence 0 and the
failure reason in the comments; the decision is always one of the four enum
members; and whenever the attempt fails — including a decision string
outside the enum — the result is pending with confidence 0, never
approved. -/
theorem ai_process_item_fail_safe (outcome : Except String JVal) (r : String) :
    ((AIService.process_item outcome).decision = .approve
      ∨ (AIService.process_item outcome).decision = .reject
      ∨ (AIService.process_item outcome).decision = .pending
      ∨ (AIService.process_item outcome).decision = .flag)
    ∧ AIService.process_item (.error r) =
        { decision := .pending, comments := "AI processing failed: " ++ r,
          confidence := 0, suggested_tags := [], suggested_risk_score := 0,
          suggested_asset_type := none }
    ∧ (match aiAttempt outcome with
       | .error e =>
          AIService.process_item outcome =
            { decision := .pending, comments := "AI processing failed: " ++ e,
              confidence := 0, suggested_tags := [], suggested_risk_score := 0,
              suggested_asset_type := none }
          ∧ (AIService.process_item outcome).decision ≠ .approve
       | .ok _ => True) := by
  refine ⟨?_, rfl, ?_⟩
  · cases h : (AIService.process_item outcome).decision <;> simp
  · cases haa : aiAttempt outcome with
    | ok out => exact trivial
    | error e =>
      simp [AIService.process_item, haa, aiFallback]

/-- C5: with an AI result the item status is the image of the decision under
approved→approved, rejected→rejected, pending→pending, flag→pending and
`processed_by` is "ai"; without an AI configuration the item is approved by
rule with the auto-approval comment and risk score 0. -/
theorem inventory_process_item_status (tid : String) (ai : AIOutput)
    (equip : EquipmentData) :
    ((InventoryService.process_item tid (some ai) equip).status =
        match ai.decision with
        | .approve => "approved"
        | .reject => "rejected"
        | .pending => "pending"
        | .flag => "pending")
    ∧ (InventoryService.process_item tid (some ai) equip).processed_by = "ai"
    ∧ (InventoryService.process_item tid none equip).status = "approved"
    ∧ (InventoryService.process_item tid none equip).processed_by = "rule"
    ∧ (InventoryService.process_item tid none equip).inventory_comments =
        "Auto-approved: No AI configuration"
    ∧ (InventoryService.process_item tid none equip).risk_score = 0 := by
  refine ⟨?_, rfl, rfl, rfl, rfl, rfl⟩
  cases hd : ai.decision <;> simp [InventoryService.process_item, hd]

/-- C7 counterexample: on an equipment record with an empty tag list the
generated prompt renders the literal "None" for the tags placeholder, which
is neither the comma-join of the (empty) tag list nor "Unknown". -/
theorem build_prompt_tags_counterexample :
    build_prompt "{tags}" { source := "n8n" } = "None"
    ∧ String.intercalate ", " ([] : List String) = ""
    ∧ ("None" : String) ≠ ""
    ∧ ("None" : String) ≠ "Unknown" := by
  refine ⟨by decide, rfl, by decide, by decide⟩

/-- C7 amended: every optional string field of the equipment record renders
as "Unknown" when absent (Python falsiness: also when empty), the source
renders as itself, and the tags placeholder renders as the tags joined by
comma-space when nonempty and as the literal "None" when the tag list is
empty; a concrete prompt over absent fields shows the rendering. -/
theorem prompt_placeholder_rendering (d : EquipmentData) :
    lookupReplacement d "{hostname}" = some (orUnknown d.hostname)
    ∧ lookupReplacement d "{ip_address}" = some (orUnknown d.ip_address)
    ∧ lookupReplacement d "{mac_address}" = some (orUnknown d.mac_address)
    ∧ lookupReplacement d "{os}" = some (orUnknown d.os)
    ∧ lookupReplacement d "{os_version}" = some (orUnknown d.os_version)
    ∧ lookupReplacement d "{asset_type}" = some (orUnknown d.asset_type)
    ∧ lookupReplacement d "{manufacturer}" = some (orUnknown d.manufacturer)
    ∧ lookupReplacement d "{model}" = some (orUnknown d.model)
    ∧ lookupReplacement d "{serial_number}" = some (orUnknown d.serial_number)
    ∧ lookupReplacement d "{location}" = some (orUnknown d.location)
    ∧ lookupReplacement d "{department}" = some (orUnknown d.department)
    ∧ lookupReplacement d "{owner}" = some (orUnknown d.owner)
    ∧ lookupReplacement d "{tags}" = some (renderTags d.tags)
    ∧ lookupReplacement d "{source}" = some d.source
    ∧ orUnknown none = "Unknown"
    ∧ renderTags [] = "None"
    ∧ renderTags ["a", "b"] = "a, b"
    ∧ build_prompt "Host: {hostname} Tags: {tags}" { source := "n8n" } =
        "Host: Unknown Tags: None" := by
  refine ⟨rfl, rfl, rfl, rfl, rfl, rfl, rfl, rfl, rfl, rfl, rfl, rfl, rfl, rfl,
    rfl, rfl, by decide, by decide⟩

/-- C8: the tag list of an AI-processed inventory item is duplicate-free and
its underlying set is exactly the union of the equipment tags and the
AI-suggested tags; merging a tag set with itself therefore yields the same
set. -/
theorem inventory_tags_union (tid : String) (ai : AIOutput) (equip : EquipmentData) :
    (InventoryService.process_item tid (some ai) equip).tags.Nodup
    ∧ (InventoryService.process_item tid (some ai) equip).tags.toFinset =
        equip.tags.toFinset ∪ ai.suggested_tags.toFinset
    ∧ (∀ x, x ∈ (InventoryService.process_item tid (some ai) equip).tags ↔
        (x ∈ equip.tags ∨ x ∈ ai.suggested_tags)) := by
  refine ⟨?_, ?_, ?_⟩
  · simp [InventoryService.process_item, List.nodup_dedup]
  · ext x
    simp [InventoryService.process_item, List.mem_toFinset, List.mem_dedup,
      List.mem_append]
  · intro x
    simp [InventoryService.process_item, List.mem_dedup, List.mem_append]

/-! ### Extraction lemmas for C6 -/

lemma pyFind_nonneg_iff (cs : List Char) (c : Char) : 0 ≤ pyFind cs c ↔ c ∈ cs := by
  induction cs with
  | nil => simp [pyFind]
  | cons x xs ih =>
    simp only [pyFind, List.mem_cons]
    by_cases hx : x = c
    · simp [hx]
    · rw [if_neg hx]
      by_cases hr : pyFind xs c < 0
      · rw [if_pos hr]
        have h2 : c ∉ xs := fun hm => absurd (ih.mpr hm) (not_le.mpr hr)
        have h3 : ¬ (c = x) := fun hcx => hx hcx.symm
        simp [h2, h3]
      · rw [if_neg hr]
        have h2 : c ∈ xs := ih.mp (not_lt.mp hr)
        simp only [h2, or_true, iff_true]
        omega

lemma pyRfind_ge_neg_one (cs : List Char) (c : Char) : -1 ≤ pyRfind cs c := by
  induction cs with
  | nil => simp [pyRfind]
  | cons x xs ih =>
    simp only [pyRfind]
    split_ifs <;> omega

lemma pyRfind_nonneg_iff (cs : List Char) (c : Char) : 0 ≤ pyRfind cs c ↔ c ∈ cs := by
  induction cs with
  | nil => simp [pyRfind]
  | cons x xs ih =>
    simp only [pyRfind, List.mem_cons]
    by_cases hr : pyRfind xs c ≥ 0
    · rw [if_pos hr]
      have h2 : c ∈ xs := ih.mp hr
      simp only [h2, or_true, iff_true]
      omega
    · rw [if_neg hr]
      by_cases hx : x = c
      · simp [hx]
      · rw [if_neg hx]
        have h2 : c ∉ xs := fun hm => hr (ih.mpr hm)
        have h3 : ¬ (c = x) := fun hcx => hx hcx.symm
        simp [h2, h3]

lemma dropWhile_append_stop {p : Char → Bool} {l₁ : List Char} (l₂ : List Char)
    (h : ∃ a ∈ l₁, p a = false) :
    (l₁ ++ l₂).dropWhile p = l₁.dropWhile p ++ l₂ := by
  induction l₁ with
  | nil => simp at h
  | cons x xs ih =>
    by_cases hx : p x = true
    · obtain ⟨a, ha, hpa⟩ := h
      rcases List.mem_cons.mp ha with h1 | h1
      · subst h1; rw [hx] at hpa; cases hpa
      · simp only [List.cons_append, List.dropWhile_cons, hx, if_true]
        exact ih ⟨a, h1, hpa⟩
    · simp [List.dropWhile_cons, hx]

lemma dropWhile_append_all {p : Char → Bool} {l₁ : List Char} (l₂ : List Char)
    (h : ∀ a ∈ l₁, p a = true) :
    (l₁ ++ l₂).dropWhile p = l₂.dropWhile p := by
  induction l₁ with
  | nil => simp
  | cons x xs ih =>
    simp only [List.cons_append, List.dropWhile_cons, h x (List.mem_cons_self x xs),
      if_true]
    exact ih (fun a ha => h a (List.mem_cons_of_mem x ha))

lemma take_pyRfind (cs : List Char) (c : Char) :
    cs.take (pyRfind cs c + 1).toNat = (cs.reverse.dropWhile (fun a => a != c)).reverse := by
  induction cs with
  | nil => simp [pyRfind]
  | cons x xs ih =>
    simp only [pyRfind, List.reverse_cons]
    by_cases hr : pyRfind xs c ≥ 0
    · rw [if_pos hr]
      have hcx : c ∈ xs.reverse := by
        simpa using (pyRfind_nonneg_iff xs c).mp hr
      have hstep := dropWhile_append_stop (p := fun a => a != c) [x] ⟨c, hcx, by simp⟩
      have harith : (pyRfind xs c + 1 + 1).toNat = (pyRfind xs c + 1).toNat + 1 := by
        omega
      rw [harith, List.take_succ_cons, ih, hstep, List.reverse_append]
      simp
    · rw [if_neg hr]
      have hc : c ∉ xs := fun hm => hr ((pyRfind_nonneg_iff xs c).mpr hm)
      have hall : ∀ a ∈ xs.reverse, (fun a => a != c) a = true := by
        intro a ha
        have haxs : a ∈ xs := by simpa using ha
        simp only [bne_iff_ne, ne_eq]
        exact fun hac => hc (hac ▸ haxs)
      rw [dropWhile_append_all [x] hall]
      by_cases hx : x = c
      · rw [if_pos hx]
        subst hx
        simp [List.dropWhile_cons]
      · rw [if_neg hx]
        have hpt : (x != c) = true := by simpa using hx
        simp [List.dropWhile_cons, hpt]

lemma pySlice_cons_succ (x : Char) (cs : List Char) (i e : Int)
    (hi : 0 ≤ i) (he : 0 ≤ e) :
    pySlice (x :: cs) (i + 1) (e + 1) = pySlice cs i e := by
  have h1 : pyClampIndex (x :: cs).length (i + 1) = pyClampIndex cs.length i + 1 := by
    simp only [pyClampIndex, List.length_cons]
    split_ifs <;> omega
  have h2 : pyClampIndex (x :: cs).length (e + 1) = pyClampIndex cs.length e + 1 := by
    simp only [pyClampIndex, List.length_cons]
    split_ifs <;> omega
  simp only [pySlice, h1, h2, List.drop_succ_cons, Nat.add_sub_add_right]

lemma pySlice_zero_take (cs : List Char) (e : Int) (he : 0 ≤ e) :
    pySlice cs 0 e = cs.take e.toNat := by
  have h0 : pyClampIndex cs.length 0 = 0 := by simp [pyClampIndex]
  have h1 : pyClampIndex cs.length e = min e.toNat cs.length := by
    simp only [pyClampIndex]
    split_ifs <;> omega
  simp only [pySlice, h0, h1, List.drop_zero, Nat.sub_zero]
  rcases le_total e.toNat cs.length with h | h
  · rw [min_eq_left h]
  · rw [min_eq_right h, List.take_length, List.take_of_length_le h]

lemma pySlice_nil_of_le (cs : List Char) (i e : Int)
    (h : pyClampIndex cs.length e ≤ pyClampIndex cs.length i) :
    pySlice cs i e = [] := by
  simp [pySlice, Nat.sub_eq_zero_of_le h]

/-- The slice extraction of the code agrees with the description in the
spec whenever the content contains an opening brace. (Without one, `find`
returning `-1` makes the slice start at the last character, an edge the spec
does not describe.) -/
lemma extractJson_eq_specSegment (cs : List Char) (h : '{' ∈ cs) :
    extractJson cs = specSegment cs := by
  induction cs with
  | nil => cases h
  | cons x xs ih =>
    by_cases hx : x = '{'
    · subst hx
      have hf : pyFind ('{' :: xs) '{' = 0 := by simp [pyFind]
      have hr1 : -1 ≤ pyRfind ('{' :: xs) '}' := pyRfind_ge_neg_one _ _
      rw [extractJson, hf, pySlice_zero_take _ _ (by omega), take_pyRfind]
      simp [specSegment, List.dropWhile_cons]
    · have hxs : '{' ∈ xs := by
        rcases List.mem_cons.mp h with h1 | h1
        · exact absurd h1.symm hx
        · exact h1
      have hxb : (x != '{') = true := by simpa using hx
      have hspec : specSegment (x :: xs) = specSegment xs := by
        simp [specSegment, List.dropWhile_cons, hxb]
      have hfpos : 0 ≤ pyFind xs '{' := (pyFind_nonneg_iff xs _).mpr hxs
      have hfind : pyFind (x :: xs) '{' = pyFind xs '{' + 1 := by
        simp only [pyFind]
        rw [if_neg hx, if_neg (by omega)]
      rw [hspec, ← ih hxs]
      by_cases hr : pyRfind xs '}' ≥ 0
      · have hrf : pyRfind (x :: xs) '}' = pyRfind xs '}' + 1 := by
          simp only [pyRfind]
          rw [if_pos hr]
        rw [extractJson, extractJson, hfind, hrf]
        exact pySlice_cons_succ x xs _ _ hfpos (by omega)
      · have hrneg : pyRfind xs '}' = -1 := by
          have := pyRfind_ge_neg_one xs '}'
          omega
        have hright : extractJson xs = [] := by
          rw [extractJson, hrneg]
          have h0 : pyClampIndex xs.length (-1 + 1) = 0 := by
            simp [pyClampIndex]
          apply pySlice_nil_of_le
          rw [h0]
          exact Nat.zero_le _
        have hstart1 : 1 ≤ pyClampIndex (x :: xs).length (pyFind xs '{' + 1) := by
          simp only [pyClampIndex, List.length_cons]
          split_ifs <;> omega
        have hleft : extractJson (x :: xs) = [] := by
          rw [extractJson, hfind]
          by_cases hxc : x = '}'
          · have hrf : pyRfind (x :: xs) '}' = 0 := by
              simp only [pyRfind]
              rw [if_neg (by omega), if_pos hxc]
            rw [hrf]
            apply pySlice_nil_of_le
            have hstop : pyClampIndex (x :: xs).length (0 + 1) ≤ 1 := by
              simp only [pyClampIndex, List.length_cons]
              split_ifs <;> omega
            omega
          · have hrf : pyRfind (x :: xs) '}' = -1 := by
              simp only [pyRfind]
              rw [if_neg (by omega), if_neg hxc]
            rw [hrf]
            apply pySlice_nil_of_le
            have hstop : pyClampIndex (x :: xs).length (-1 + 1) = 0 := by
              simp [pyClampIndex]
            omega
        rw [hleft, hright]

/-- C6: on any content containing an opening brace, the JSON extraction of
the pipeline is exactly the substring from the first opening brace to the
last closing brace (as described by `specSegment`), and an `AIOutput` built
from a parsed object with all six keys absent gets the defaults: decision
pending, empty comments, confidence one half, no suggested tags, suggested
risk score 0, no suggested asset type. -/
theorem response_extraction_and_defaults (content : List Char) (h : '{' ∈ content)
    (fields : List (String × JVal))
    (h1 : jGet fields "decision" = none) (h2 : jGet fields "comments" = none)
    (h3 : jGet fields "confidence" = none) (h4 : jGet fields "suggested_tags" = none)
    (h5 : jGet fields "suggested_risk_score" = none)
    (h6 : jGet fields "suggested_asset_type" = none) :
    extractJson content = specSegment content
    ∧ buildAIOutput fields = .ok
        { decision := .pending, comments := "", confidence := 1 / 2,
          suggested_tags := [], suggested_risk_score := 0,
          suggested_asset_type := none } := by
  refine ⟨extractJson_eq_specSegment content h, ?_⟩
  have g1 : getDecision fields = .ok .pending := by unfold getDecision; rw [h1]
  have g2 : getComments fields = .ok "" := by unfold getComments; rw [h2]
  have g3 : getConfidence fields = .ok (1 / 2) := by unfold getConfidence; rw [h3]
  have g4 : getTags fields = .ok [] := by unfold getTags; rw [h4]
  have g5 : getRiskScore fields = .ok 0 := by unfold getRiskScore; rw [h5]
  have g6 : getAssetType fields = .ok none := by unfold getAssetType; rw [h6]
  simp only [buildAIOutput, g1, g2, g3, g4, g5, g6]
  rfl

/-- Witness for C6: the theorem applied to the content "ab{x}c" and the
empty parsed object. -/
theorem response_extraction_and_defaults_witness :
    extractJson ("ab{x}c".data) = specSegment ("ab{x}c".data)
    ∧ buildAIOutput [] = .ok
        { decision := .pending, comments := "", confidence := 1 / 2,
          suggested_tags := [], suggested_risk_score := 0,
          suggested_asset_type := none } :=
  response_extraction_and_defaults ("ab{x}c".data) (by decide) [] rfl rfl rfl rfl rfl rfl

/-- C9: a manual approve sets status "approved", a manual reject sets status
"rejected", and both set `processed_by` to "manual" and overwrite the
comments with the given string, whatever the prior state of the item. -/
theorem manual_decision_overrides (item : InventoryService.StoredItem)
    (comments : String) :
    (InventoryService.approve_item item comments).status = "approved"
    ∧ (InventoryService.approve_item item comments).processed_by = "manual"
    ∧ (InventoryService.approve_item item comments).inventory_comments = comments
    ∧ (InventoryService.reject_item item comments).status = "rejected"
    ∧ (InventoryService.reject_item item comments).processed_by = "manual"
    ∧ (InventoryService.reject_item item comments).inventory_comments = comments :=
  ⟨rfl, rfl, rfl, rfl, rfl, rfl⟩

end UnderSight
